import Mathlib

/-!
Verification of `amazon-location-migration` against its specification.

Shallow embedding of the relevant parts of the repository:

* `src/src/directions/helpers.ts` — avoidance-option translation, reverse-geocode
  batching, unit-system inference, distance and duration formatting.  JavaScript
  numbers are embedded as `ℚ` (exact arithmetic), strings as `String`, absent or
  `undefined` fields as `Option`, and promises as an explicit settled-result type.
* parts of `src/common.ts` and `src/geocoder.ts` whose implementations are not in
  the repository snapshot (only their tests are) are modelled from the spec; each
  such definition carries a doc comment starting with `Modelled from the spec:`.
-/

/- ### Unit system (src/directions/defines.ts) -/

/-- The unit-system enum used by the directions helpers. -/
inductive UnitSystem where
  | METRIC
  | IMPERIAL
deriving DecidableEq, Repr

/- ### Number formatting (src/src/directions/helpers.ts, bottom)

`Intl.NumberFormat("en-US", ...)` is embedded as explicit decimal rendering:
the default rounding mode `halfExpand` on a non-negative value is
`floor (x + 1/2)`, grouping inserts a comma every three digits from the right.
`Math.round` agrees with this on non-negative values. -/

/-- JavaScript `Math.round` (also `Intl` half-expand rounding) on a non-negative
rational: round half up. -/
def jsRound (q : ℚ) : ℤ :=
  Rat.floor (q + 1 / 2)

/-- Insert a comma before every third digit, on a reversed digit list. -/
def groupDigitsRev (cs : List Char) : List Char :=
  cs.enum.flatMap fun ic => if ic.1 % 3 == 0 && ic.1 != 0 then [',', ic.2] else [ic.2]

/-- Render a natural number with `en-US` thousands separators (`1234 ↦ "1,234"`). -/
def groupedNat (n : Nat) : String :=
  String.mk (groupDigitsRev (Nat.repr n).toList.reverse).reverse

/-- `numberFormatter` of helpers.ts: `en-US`, exactly one fraction digit, grouped.
Embedded for non-negative inputs (the only ones the helpers feed it). -/
def numberFormatter (q : ℚ) : String :=
  groupedNat ((jsRound (q * 10)) / 10).toNat ++ "." ++ Nat.repr ((jsRound (q * 10)) % 10).toNat

/-- `largeNumberFormatter` of helpers.ts: `en-US`, no fraction digits, grouped. -/
def largeNumberFormatter (q : ℚ) : String :=
  groupedNat (jsRound q).toNat

/- ### Distance formatting (src/src/directions/helpers.ts lines 369-390) -/

/-- `KILOMETERS_TO_MILES_CONSTANT = 0.621371`. -/
def KILOMETERS_TO_MILES_CONSTANT : ℚ := 621371 / 1000000

/-- `FEET_TO_MILES_CONSTANT = 5280`. -/
def FEET_TO_MILES_CONSTANT : ℚ := 5280

/-- `formatImperialDistance` of helpers.ts. -/
def formatImperialDistance (miles : ℚ) : String :=
  if miles < 1 / 10 then Nat.repr (jsRound (miles * FEET_TO_MILES_CONSTANT)).toNat ++ " ft"
  else if miles < 1000 then numberFormatter miles ++ " mi"
  else largeNumberFormatter miles ++ " mi"

/-- `formatMetricDistance` of helpers.ts. -/
def formatMetricDistance (km : ℚ) (meters : ℚ) : String :=
  if km < 1 then Nat.repr (jsRound meters).toNat ++ " m"
  else if km < 1000 then numberFormatter km ++ " km"
  else largeNumberFormatter km ++ " km"

/-- `formatDistanceBasedOnUnitSystem` of helpers.ts; `options.unitSystem` is the
optional unit-system preference. -/
def formatDistanceBasedOnUnitSystem (meters : ℚ) (options : Option UnitSystem) : String :=
  let isImperial := options = some UnitSystem.IMPERIAL
  let kilometers := meters / 1000
  let miles := kilometers * KILOMETERS_TO_MILES_CONSTANT
  if isImperial then formatImperialDistance miles
  else formatMetricDistance kilometers meters

/-- The metric formatting rules exactly as the claim words them: below 1000 m
round to metres; from 1 km to under 1000 km one decimal digit of kilometres;
at or above 1000 km thousands-grouped whole kilometres. -/
def distanceClaimMetric (meters : ℚ) : String :=
  if meters < 1000 then Nat.repr (jsRound meters).toNat ++ " m"
  else if meters / 1000 < 1000 then numberFormatter (meters / 1000) ++ " km"
  else largeNumberFormatter (meters / 1000) ++ " km"

/-- The imperial formatting rules exactly as the claim words them: convert at
0.621371 miles per kilometre; below 0.1 mi round to feet at 5280 ft/mi; from
0.1 mi to under 1000 mi one decimal digit of miles; at or above 1000 mi
thousands-grouped whole miles. -/
def distanceClaimImperial (meters : ℚ) : String :=
  let miles := meters / 1000 * (621371 / 1000000)
  if miles < 1 / 10 then Nat.repr (jsRound (miles * 5280)).toNat ++ " ft"
  else if miles < 1000 then numberFormatter miles ++ " mi"
  else largeNumberFormatter miles ++ " mi"

/- ### Duration formatting (src/src/directions/helpers.ts lines 106-122) -/

/-- `formatSecondsAsGoogleDurationText` of helpers.ts; `Math.ceil (x / 60)` on a
natural number is `(x + 59) / 60`. -/
def formatSecondsAsGoogleDurationText (seconds : Nat) : String :=
  let days := seconds / 86400
  let remainingSeconds := seconds % 86400
  let hours := remainingSeconds / 3600
  let remainingMinuteSeconds := remainingSeconds % 3600
  let minutes := (remainingMinuteSeconds + 59) / 60
  let dayString :=
    if days > 0 then (if days = 1 then Nat.repr days ++ " day" else Nat.repr days ++ " days")
    else ""
  let hourString :=
    if hours > 0 then (if hours = 1 then Nat.repr hours ++ " hour" else Nat.repr hours ++ " hours")
    else ""
  let minuteString :=
    if minutes > 0 then
      (if minutes = 1 then Nat.repr minutes ++ " min" else Nat.repr minutes ++ " mins")
    else ""
  let parts := [dayString, hourString, minuteString].filter fun str => str != ""
  String.intercalate " " parts

/-- Render one duration component, singular exactly when the count is 1. -/
def durationUnitText (n : Nat) (unit : String) : String :=
  Nat.repr n ++ " " ++ (if n = 1 then unit else unit ++ "s")

/-- The duration text exactly as the claim words it: decompose the seconds as
`days = s / 86400`, `hours = (s % 86400) / 3600`, `minutes = ⌈(s % 3600) / 60⌉`,
join the non-zero components with spaces. -/
def durationClaimText (s : Nat) : String :=
  String.intercalate " "
    ((if s / 86400 = 0 then [] else [durationUnitText (s / 86400) "day"]) ++
     (if s % 86400 / 3600 = 0 then [] else [durationUnitText (s % 86400 / 3600) "hour"]) ++
     (if (s % 3600 + 59) / 60 = 0 then [] else [durationUnitText ((s % 3600 + 59) / 60) "min"]))

/- ### Settled promises

A JavaScript promise is embedded by its settled result: either resolved with a
value or rejected.  `pBind` is `.then` with a handler that may itself fail,
`pCatch` is `.catch` with a handler that returns normally, and `pAll` is
`Promise.all`: resolved with the list of values exactly when every input
resolved. -/

/-- The settled result of a promise. -/
inductive PResult (α : Type) where
  | resolved (value : α)
  | rejected
deriving DecidableEq, Repr

/-- Chain a handler that may itself throw (`.then`). -/
def pBind {α β : Type} (p : PResult α) (f : α → PResult β) : PResult β :=
  match p with
  | .resolved v => f v
  | .rejected => .rejected

/-- Recover from rejection (`.catch`); the result is always resolved. -/
def pCatch {α : Type} (p : PResult α) (handler : Unit → α) : PResult α :=
  match p with
  | .resolved v => .resolved v
  | .rejected => .resolved (handler ())

/-- `Promise.all`: resolved with all values, in order, iff every input resolved. -/
def pAll {α : Type} : List (PResult α) → PResult (List α)
  | [] => .resolved []
  | .rejected :: _ => .rejected
  | .resolved v :: ps =>
    match pAll ps with
    | .resolved vs => .resolved (v :: vs)
    | .rejected => .rejected

/- ### Geo-places backend responses (the shapes helpers.ts reads)

`Option` marks fields that may be absent, `undefined` or `null`; a list entry
that is `null` in JavaScript is an `Option.none` entry. -/

/-- Country metadata of an address (`Address.Country`). -/
structure GeoCountry where
  Code3 : Option String
deriving DecidableEq, Repr

/-- The address of a reverse-geocode result item. -/
structure GeoAddress where
  Label : Option String
  Country : Option GeoCountry
deriving DecidableEq, Repr

/-- One entry of `ResultItems`. -/
structure ReverseResultItem where
  Address : Option GeoAddress
deriving DecidableEq, Repr

/-- The response of a `ReverseGeocodeCommand`. -/
structure ReverseGeocodeResponse where
  ResultItems : Option (List (Option ReverseResultItem))
deriving DecidableEq, Repr

/-- JavaScript `s || ""`: the empty string is falsy, so a missing or empty
label both give `""`. -/
def jsOrEmpty (o : Option String) : String :=
  match o with
  | none => ""
  | some s => if s == "" then "" else s

/-- The optional chain `response.ResultItems?.[0]?.Address?.Label`. -/
def firstItemLabel (r : ReverseGeocodeResponse) : Option String :=
  (((r.ResultItems.bind List.head?).bind id).bind fun it => it.Address).bind fun a => a.Label

/- ### Reverse-geocode batching (src/src/directions/helpers.ts lines 174-205)

The backend environment is embedded as the settled outcome of each position's
`client.send` call: `rejected` when the request fails, `resolved none` when it
resolves with `undefined`, `resolved (some r)` when it resolves with response
`r`.  The function's observable behaviour is the number of requests issued and
the list of callback invocations. -/

/-- Observable behaviour of one `getReverseGeocodedAddresses` call. -/
structure BatchTrace where
  requestsSent : Nat
  callbackCalls : List (List String)
deriving DecidableEq, Repr

/-- The `.then` handler of one position's request: reading `ResultItems` of an
`undefined` response throws (and is then caught); otherwise the first item's
label, defaulted to `""` by `|| ""`. -/
def reverseGeocodeThen (response : Option ReverseGeocodeResponse) : PResult String :=
  match response with
  | none => .rejected
  | some r => .resolved (jsOrEmpty (firstItemLabel r))

/-- One position's promise in the batch: request, extract the label, degrade any
failure to `""` via `.catch` (which also logs). -/
def perPositionPromise (outcome : PResult (Option ReverseGeocodeResponse)) : PResult String :=
  pCatch (pBind outcome reverseGeocodeThen) fun _ => ""

/-- `getReverseGeocodedAddresses` of helpers.ts, over the per-position backend
outcomes: empty input short-circuits to `callback([])` with no request;
otherwise one request per position, `Promise.all`, and on the (unreachable)
batch rejection a callback with all-empty strings. -/
def getReverseGeocodedAddresses (outcomes : List (PResult (Option ReverseGeocodeResponse))) :
    BatchTrace :=
  if outcomes.length = 0 then { requestsSent := 0, callbackCalls := [[]] }
  else
    match pAll (outcomes.map perPositionPromise) with
    | .resolved addresses => { requestsSent := outcomes.length, callbackCalls := [addresses] }
    | .rejected =>
      { requestsSent := outcomes.length,
        callbackCalls := [List.replicate outcomes.length ""] }

/-- The address the claim promises for one position: the first result's address
label on success, `""` when the request failed or the response lacks a label. -/
def claimAddress (outcome : PResult (Option ReverseGeocodeResponse)) : String :=
  match outcome with
  | .resolved (some r) => (firstItemLabel r).getD ""
  | _ => ""

/- ### Unit-system inference (src/src/directions/helpers.ts lines 611-640) -/

/-- `getUnitSystemFromLatLong` of helpers.ts, over the settled outcome of the
`ReverseGeocodeCommand`; the returned value is the argument of the single
callback invocation.  The `.catch` branch makes every failure `METRIC`, and the
optional chain `response?.ResultItems?.[0]?.Address?.Country?.Code3 || ""`
makes every degenerate response `METRIC`. -/
def getUnitSystemFromLatLong (outcome : PResult (Option ReverseGeocodeResponse)) : UnitSystem :=
  match outcome with
  | .rejected => UnitSystem.METRIC
  | .resolved response =>
    let address :=
      (((response.bind fun r => r.ResultItems).bind List.head?).bind id).bind fun it => it.Address
    let countryCode := jsOrEmpty ((address.bind fun a => a.Country).bind fun c => c.Code3)
    if (["USA", "MMR", "LBR"] : List String).contains countryCode then UnitSystem.IMPERIAL
    else UnitSystem.METRIC

/- ### Avoidance options (src/src/directions/helpers.ts lines 141-165)

The backend `Avoid` object is a bag of boolean flags; an absent flag reads as
`false` in JavaScript, so flags are embedded as `Bool` and the object spread
`{ ...input.Avoid, X: true }` as a record update of the existing flags (or of
the all-false record when `input.Avoid` is absent).  `CarShuttleTrains` and
`DirtRoads` stand for the further avoid flags the backend accepts, so that
erasure of unrelated pre-existing flags is observable. -/

/-- The backend avoid-flag object. -/
structure AvoidOptions where
  TollRoads : Bool
  TollTransponders : Bool
  Ferries : Bool
  ControlledAccessHighways : Bool
  CarShuttleTrains : Bool
  DirtRoads : Bool
deriving DecidableEq, Repr

/-- The avoid-object with no flag set (also what spreading `undefined` gives). -/
def emptyAvoid : AvoidOptions :=
  { TollRoads := false, TollTransponders := false, Ferries := false,
    ControlledAccessHighways := false, CarShuttleTrains := false, DirtRoads := false }

/-- The three booleans `populateAvoidOptions` reads from the source request. -/
structure AvoidRequest where
  avoidTolls : Bool
  avoidFerries : Bool
  avoidHighways : Bool
deriving DecidableEq, Repr

/-- The backend request object, with the fields beyond `Avoid` that
`populateAvoidOptions` must leave untouched. -/
structure RoutesRequestInput where
  Avoid : Option AvoidOptions
  Origin : Option (ℚ × ℚ)
  TravelMode : Option String
deriving DecidableEq, Repr

/-- `populateAvoidOptions` of helpers.ts: the `avoidTolls` branch assigns a
fresh avoid-object, the `avoidFerries` and `avoidHighways` branches spread the
current one. -/
def populateAvoidOptions (request : AvoidRequest) (input : RoutesRequestInput) :
    RoutesRequestInput :=
  let input1 :=
    if request.avoidTolls then
      { input with Avoid := some { emptyAvoid with TollRoads := true, TollTransponders := true } }
    else input
  let input2 :=
    if request.avoidFerries then
      { input1 with Avoid := some { input1.Avoid.getD emptyAvoid with Ferries := true } }
    else input1
  if request.avoidHighways then
    { input2 with
      Avoid := some { input2.Avoid.getD emptyAvoid with ControlledAccessHighways := true } }
  else input2

/-- What the amended claim says the final avoid-object is: with `avoidTolls`
set, a fresh object carrying the toll flags plus whatever the other two
booleans add (pre-existing flags erased); with `avoidTolls` unset but another
boolean set, the existing object with the requested flags merged in
non-destructively; with no boolean set, the existing object untouched. -/
def avoidAmendedResult (request : AvoidRequest) (avoid0 : Option AvoidOptions) :
    Option AvoidOptions :=
  if request.avoidTolls then
    some { TollRoads := true, TollTransponders := true, Ferries := request.avoidFerries,
           ControlledAccessHighways := request.avoidHighways, CarShuttleTrains := false,
           DirtRoads := false }
  else if request.avoidFerries || request.avoidHighways then
    some { avoid0.getD emptyAvoid with
           Ferries := (avoid0.getD emptyAvoid).Ferries || request.avoidFerries,
           ControlledAccessHighways :=
             (avoid0.getD emptyAvoid).ControlledAccessHighways || request.avoidHighways }
  else avoid0

/- ### Coordinates (MigrationLatLng)

The implementation file `src/common.ts` is not in the repository snapshot (only
its unit tests are), so the constructor is modelled from the spec. -/

/-- A constructed coordinate: the stored latitude and longitude. -/
structure MigrationLatLng where
  latValue : ℚ
  lngValue : ℚ
deriving DecidableEq, Repr

/-- Clamp a latitude into `[-90, 90]`. -/
def clampLat (lat : ℚ) : ℚ :=
  max (-90) (min 90 lat)

/-- Wrap a longitude into `[-180, 180)`, preserving its value modulo 360. -/
def wrapLng (lng : ℚ) : ℚ :=
  lng - 360 * Rat.floor ((lng + 180) / 360)

/-- Modelled from the spec: the `MigrationLatLng` constructor of `src/common.ts`
(absent from the snapshot; only its tests are present).  Latitude is clamped to
`[-90, 90]` and longitude wrapped into `[-180, 180)` unless the no-clamp flag is
set at construction, in which case both values are stored unchanged. -/
def mkMigrationLatLng (lat lng : ℚ) (noClampNoWrap : Bool) : MigrationLatLng :=
  if noClampNoWrap then { latValue := lat, lngValue := lng }
  else { latValue := clampLat lat, lngValue := wrapLng lng }

/- ### Bounds (MigrationLatLngBounds)

Also modelled from the spec (`src/common.ts` absent).  To express object
identity, bounds objects live in a store addressed by references; a mutating
operation returns the updated store together with the reference it returns to
the caller. -/

/-- A bounds value: empty, or a south-west/north-east envelope. -/
inductive BoundsState where
  | empty
  | envelope (swLat swLng neLat neLng : ℚ)
deriving DecidableEq, Repr

/-- Modelled from the spec: `MigrationLatLngBounds.contains` — the point lies
within the south-west/north-east envelope (an empty bounds contains nothing). -/
def boundsContains (b : BoundsState) (lat lng : ℚ) : Bool :=
  match b with
  | .empty => false
  | .envelope swLat swLng neLat neLng =>
    decide (swLat ≤ lat) && decide (lat ≤ neLat) && decide (swLng ≤ lng) && decide (lng ≤ neLng)

/-- Modelled from the spec: the value computed by `MigrationLatLngBounds.extend`
— expand the envelope minimally to include the point (an empty bounds becomes
the degenerate envelope at the point). -/
def boundsExtendValue (b : BoundsState) (lat lng : ℚ) : BoundsState :=
  match b with
  | .empty => .envelope lat lng lat lng
  | .envelope swLat swLng neLat neLng =>
    .envelope (min swLat lat) (min swLng lng) (max neLat lat) (max neLng lng)

/-- A heap of bounds objects, addressed by references. -/
def BoundsStore : Type :=
  Nat → BoundsState

/-- Modelled from the spec: `MigrationLatLngBounds.extend` mutates the receiver
in place and returns it — the store is updated at the receiver's reference and
that same reference is handed back (aliasing, not a copy). -/
def boundsExtend (store : BoundsStore) (self : Nat) (lat lng : ℚ) : BoundsStore × Nat :=
  (Function.update store self (boundsExtendValue (store self) lat lng), self)

/- ### Circle rendering lifecycle (MigrationCircle)

Also modelled from the spec (`src/common.ts` absent).  The calls a circle makes
on the underlying map are recorded as a list of operations; layer ids and the
source id are derived from the per-map circle counter. -/

/-- The type a layer is added with (`type: "fill"` / `type: "line"`). -/
inductive LayerKind where
  | fill
  | line
deriving DecidableEq, Repr

/-- One call on the underlying render-library map. -/
inductive MapOp where
  | addSource (id : String)
  | addLayer (kind : LayerKind) (id : String) (source : String)
  | removeLayer (id : String)
  | removeSource (id : String)
deriving DecidableEq, Repr

/-- The geometry-source id `circle-source-<n>`. -/
def circleSourceId (n : Nat) : String :=
  "circle-source-" ++ Nat.repr n

/-- The fill-layer id `circle-fill-<n>`. -/
def circleFillId (n : Nat) : String :=
  "circle-fill-" ++ Nat.repr n

/-- The line-layer id `circle-line-<n>`. -/
def circleLineId (n : Nat) : String :=
  "circle-line-" ++ Nat.repr n

/-- Modelled from the spec: the map calls made when a circle with counter `n` is
constructed with a map attached (`src/common.ts` absent) — register one named
geometry source, then the fill layer, then the line layer, both referencing that
source. -/
def circleDrawOps (n : Nat) : List MapOp :=
  [ .addSource (circleSourceId n),
    .addLayer .fill (circleFillId n) (circleSourceId n),
    .addLayer .line (circleLineId n) (circleSourceId n) ]

/-- Modelled from the spec: the map calls made by `setMap(null)` on a drawn
circle (`src/common.ts` absent) — remove the fill layer, then the line layer,
then the source, each only if the underlying lookup reports it exists. -/
def circleRemoveOps (n : Nat) (fillExists lineExists sourceExists : Bool) : List MapOp :=
  (if fillExists then [MapOp.removeLayer (circleFillId n)] else []) ++
  (if lineExists then [MapOp.removeLayer (circleLineId n)] else []) ++
  (if sourceExists then [MapOp.removeSource (circleSourceId n)] else [])

/-- Does the operation add a source? -/
def MapOp.isAddSource : MapOp → Bool
  | .addSource _ => true
  | _ => false

/-- Does the operation add a layer? -/
def MapOp.isAddLayer : MapOp → Bool
  | .addLayer _ _ _ => true
  | _ => false

/-- Does the operation remove a layer? -/
def MapOp.isRemoveLayer : MapOp → Bool
  | .removeLayer _ => true
  | _ => false

/-- Does the operation remove a source? -/
def MapOp.isRemoveSource : MapOp → Bool
  | .removeSource _ => true
  | _ => false

/- ### Geocoder failure handling (MigrationGeocoder.geocode)

The implementation file `src/geocoder.ts` is not in the repository snapshot
(only its tests are), so the failure handling is modelled from the spec: dual
callback-and-promise delivery, `UNKNOWN_ERROR` on any failure, one diagnostic
log per failure. -/

/-- The caller-facing geocoder status vocabulary (the part the claim needs). -/
inductive GeocoderStatus where
  | OK
  | UNKNOWN_ERROR
deriving DecidableEq, Repr

/-- A normalized geocode result (content irrelevant to the failure claim). -/
structure GeocoderResult where
  formatted_address : String
deriving DecidableEq, Repr

/-- The error object a failed geocode rejects with. -/
structure GeocoderError where
  status : GeocoderStatus
deriving DecidableEq, Repr

/-- Observable behaviour of one `geocode` call: the callback invocations (with
`none` standing for the JavaScript `null` results argument), the promise's
settled outcome, and the number of diagnostic logs. -/
structure GeocodeTrace where
  callbackCalls : List (Option (List GeocoderResult) × GeocoderStatus)
  promiseOutcome : Except GeocoderError (List GeocoderResult)
  errorLogs : Nat
deriving Repr

/-- Modelled from the spec: parsing the backend response into results
(`src/geocoder.ts` absent).  A rejected backend call, an `undefined` response,
a response without `ResultItems`, or any result item missing the expected
address label is a failure (`none`). -/
def geocodeParse (outcome : PResult (Option ReverseGeocodeResponse)) :
    Option (List GeocoderResult) :=
  match outcome with
  | .rejected => none
  | .resolved none => none
  | .resolved (some r) =>
    match r.ResultItems with
    | none => none
    | some items =>
      items.mapM fun it =>
        ((it.bind fun i => i.Address).bind fun a => a.Label).map
          fun lbl => { formatted_address := lbl }

/-- Modelled from the spec: the delivery contract of `MigrationGeocoder.geocode`
(`src/geocoder.ts` absent).  On success the callback (if supplied) fires with
`(results, OK)` and the promise resolves; on failure the callback (if supplied)
fires with `(null, UNKNOWN_ERROR)`, the error is logged once, and the promise
rejects with an error whose `status` is `UNKNOWN_ERROR`. -/
def geocode (outcome : PResult (Option ReverseGeocodeResponse)) (hasCallback : Bool) :
    GeocodeTrace :=
  match geocodeParse outcome with
  | some results =>
    { callbackCalls := if hasCallback then [(some results, GeocoderStatus.OK)] else []
      promiseOutcome := .ok results
      errorLogs := 0 }
  | none =>
    { callbackCalls := if hasCallback then [(none, GeocoderStatus.UNKNOWN_ERROR)] else []
      promiseOutcome := .error { status := GeocoderStatus.UNKNOWN_ERROR }
      errorLogs := 1 }

/- ### Helper lemmas -/

/-- A string with a non-empty left part is non-empty. -/
lemma str_append_ne_empty_left (a b : String) (h : a.data ≠ []) : a ++ b ≠ "" := by
  intro hab
  apply h
  have hd := congrArg String.data hab
  rw [String.data_append] at hd
  simpa using (List.append_eq_nil.mp hd).1

/-- The source's inlined singular/plural ternary renders `durationUnitText`. -/
lemma unitText_eq (n : Nat) (u : String) :
    (if n = 1 then Nat.repr n ++ (" " ++ u) else Nat.repr n ++ (" " ++ u ++ "s")) =
      durationUnitText n u := by
  unfold durationUnitText
  by_cases h : n = 1 <;> simp [h, String.append_assoc]

/-- A rendered duration component is never the empty string. -/
lemma durationUnitText_ne_empty (n : Nat) (u : String) : durationUnitText n u ≠ "" := by
  unfold durationUnitText
  apply str_append_ne_empty_left
  rw [String.data_append]
  simp

/-- Boolean form of `durationUnitText_ne_empty`, for the source's filter. -/
lemma durationUnitText_bne (n : Nat) (u : String) : (durationUnitText n u != "") = true := by
  simp [bne_iff_ne, durationUnitText_ne_empty]

/- ### C6 -/

/-- C6: for every non-negative whole number of seconds,
`formatSecondsAsGoogleDurationText` decomposes it as `days = s / 86400`,
`hours = (s % 86400) / 3600`, `minutes = ⌈(s % 3600) / 60⌉` and returns the
space-joined concatenation of the day/hour/minute components, omitting
zero-valued components, singular exactly when a component equals 1 — i.e. it
agrees with `durationClaimText`, the claim's wording, everywhere. -/
theorem formatSecondsAsGoogleDurationText_spec (s : Nat) :
    formatSecondsAsGoogleDurationText s = durationClaimText s := by
  have hmod : s % 86400 % 3600 = s % 3600 := Nat.mod_mod_of_dvd s (by norm_num)
  have hday : (if s / 86400 = 1 then Nat.repr (s / 86400) ++ " day"
      else Nat.repr (s / 86400) ++ " days") = durationUnitText (s / 86400) "day" := by
    simpa using unitText_eq (s / 86400) "day"
  have hhour : (if s % 86400 / 3600 = 1 then Nat.repr (s % 86400 / 3600) ++ " hour"
      else Nat.repr (s % 86400 / 3600) ++ " hours") =
      durationUnitText (s % 86400 / 3600) "hour" := by
    simpa using unitText_eq (s % 86400 / 3600) "hour"
  have hmin : (if (s % 3600 + 59) / 60 = 1 then Nat.repr ((s % 3600 + 59) / 60) ++ " min"
      else Nat.repr ((s % 3600 + 59) / 60) ++ " mins") =
      durationUnitText ((s % 3600 + 59) / 60) "min" := by
    simpa using unitText_eq ((s % 3600 + 59) / 60) "min"
  simp only [formatSecondsAsGoogleDurationText, durationClaimText, hmod, hday, hhour, hmin]
  by_cases hd : s / 86400 = 0 <;>
    by_cases hh : s % 86400 / 3600 = 0 <;>
      by_cases hm : (s % 3600 + 59) / 60 = 0 <;>
        simp [hd, hh, hm, Nat.pos_iff_ne_zero, List.filter, durationUnitText_bne]

/- ### C1 -/

/-- C1 counterexample: with `avoidTolls` set and an avoid-object already present
on the backend request carrying `Ferries`, `populateAvoidOptions` erases the
pre-existing `Ferries` flag — the claim's "pre-existing avoid flags are never
erased" fails. -/
theorem populateAvoidOptions_claim_counterexample :
    ((populateAvoidOptions
          { avoidTolls := true, avoidFerries := false, avoidHighways := false }
          { Avoid := some { emptyAvoid with Ferries := true }, Origin := none,
            TravelMode := none }).Avoid.getD emptyAvoid).Ferries = false ∧
      (({ Avoid := some { emptyAvoid with Ferries := true }, Origin := none,
          TravelMode := none } : RoutesRequestInput).Avoid.getD emptyAvoid).Ferries = true :=
  ⟨rfl, rfl⟩

/-- C1 (amended): `populateAvoidOptions` maps the three booleans onto their
backend flags with `avoidFerries`/`avoidHighways` merged non-destructively, but
`avoidTolls` replaces the avoid-object with a fresh one (carrying the toll flags
plus whatever the other two booleans of the same call add), erasing pre-existing
flags; with no boolean set, the avoid-object — and the rest of the request — is
untouched.  Formally the result is exactly `avoidAmendedResult`. -/
theorem populateAvoidOptions_amended (request : AvoidRequest) (input : RoutesRequestInput) :
    populateAvoidOptions request input =
      { input with Avoid := avoidAmendedResult request input.Avoid } := by
  rcases request with ⟨t, f, h⟩
  rcases input with ⟨a0, o, tm⟩
  cases t <;> cases f <;> cases h <;> rcases a0 with _ | ⟨a1, a2, a3, a4, a5, a6⟩ <;>
    simp [populateAvoidOptions, avoidAmendedResult, emptyAvoid]

/- ### C10 -/

/-- C10: calling `getReverseGeocodedAddresses` with an empty positions list
invokes the callback exactly once with the empty array and sends no backend
request, and `populateAvoidOptions` with none of the three booleans set leaves
the backend request object entirely unchanged (no `Avoid` created, no other
field touched). -/
theorem emptyPositions_and_noAvoid_frame :
    getReverseGeocodedAddresses [] = { requestsSent := 0, callbackCalls := [[]] } ∧
      ∀ input : RoutesRequestInput,
        populateAvoidOptions
          { avoidTolls := false, avoidFerries := false, avoidHighways := false } input = input :=
  ⟨rfl, fun _ => rfl⟩

/-- JavaScript `s || ""` on an optional string is just defaulting to `""`. -/
lemma jsOrEmpty_eq_getD (o : Option String) : jsOrEmpty o = o.getD "" := by
  rcases o with _ | s
  · rfl
  · unfold jsOrEmpty
    by_cases h : s == ""
    · simp at h
      simp [h]
    · simp [h]

/-- Each position's promise always resolves, with the claim's address. -/
lemma perPositionPromise_eq (o : PResult (Option ReverseGeocodeResponse)) :
    perPositionPromise o = .resolved (claimAddress o) := by
  rcases o with response | _
  · rcases response with _ | r
    · rfl
    · simp [perPositionPromise, claimAddress, pBind, reverseGeocodeThen, pCatch,
        jsOrEmpty_eq_getD]
  · rfl

/-- `Promise.all` over pointwise-resolved promises resolves with the mapped list. -/
lemma pAll_map_resolved {α β : Type} (l : List α) (f : α → PResult β) (g : α → β)
    (h : ∀ a, f a = .resolved (g a)) : pAll (l.map f) = .resolved (l.map g) := by
  induction l with
  | nil => rfl
  | cons a l ih => simp [pAll, h a, ih]

/- ### C2 -/

/-- C2: for every non-empty list of N position outcomes,
`getReverseGeocodedAddresses` issues exactly N requests, invokes the callback
exactly once with an N-length array in input order whose i-th element is the
first result's address label on success and `""` on failure or missing label
(`claimAddress`), each element depending only on its own position's outcome;
when every request fails the callback still receives N empty strings. -/
theorem getReverseGeocodedAddresses_spec
    (outcomes : List (PResult (Option ReverseGeocodeResponse))) (hne : outcomes ≠ []) :
    (getReverseGeocodedAddresses outcomes).requestsSent = outcomes.length ∧
      (getReverseGeocodedAddresses outcomes).callbackCalls = [outcomes.map claimAddress] ∧
      (outcomes.map claimAddress).length = outcomes.length ∧
      (∀ i : Nat, (outcomes.map claimAddress)[i]? = (outcomes[i]?).map claimAddress) ∧
      ((∀ o ∈ outcomes, o = PResult.rejected) →
        outcomes.map claimAddress = List.replicate outcomes.length "") := by
  have hlen : ¬outcomes.length = 0 := by simpa [List.length_eq_zero] using hne
  have hall : pAll (outcomes.map perPositionPromise) = .resolved (outcomes.map claimAddress) :=
    pAll_map_resolved _ _ _ perPositionPromise_eq
  unfold getReverseGeocodedAddresses
  rw [if_neg hlen, hall]
  refine ⟨rfl, rfl, List.length_map _ _, fun i => List.getElem?_map _ _ _, fun h => ?_⟩
  rw [List.eq_replicate_iff]
  refine ⟨by simp, fun b hb => ?_⟩
  rcases List.mem_map.mp hb with ⟨o, ho, rfl⟩
  rw [h o ho]
  rfl

/-- The backend response used by the C2 witness: one result with label `"A"`. -/
def c2Response : ReverseGeocodeResponse :=
  { ResultItems := some [some { Address := some { Label := some "A", Country := none } }] }

/-- The outcome list used by the C2 witness: one success, one failure. -/
def c2Outcomes : List (PResult (Option ReverseGeocodeResponse)) :=
  [.resolved (some c2Response), .rejected]

/-- C2 witness: a success-then-failure batch of two positions is non-empty and
reports `["A", ""]` through its single callback. -/
theorem getReverseGeocodedAddresses_spec_witness :
    c2Outcomes ≠ [] ∧ (getReverseGeocodedAddresses c2Outcomes).callbackCalls = [["A", ""]] := by
  refine ⟨by decide, ?_⟩
  have h := getReverseGeocodedAddresses_spec c2Outcomes (by decide)
  exact h.2.1.trans (by decide)

/- ### C4 -/

/-- C4: `getUnitSystemFromLatLong` is a total function of the backend outcome
(so it never throws and always invokes its callback exactly once), and the value
it passes to the callback is `IMPERIAL` exactly when the response resolved with
a first result item carrying country code `"USA"`, `"MMR"` or `"LBR"` — every
other country code and every degenerate case (missing address, missing country,
empty, `undefined` or `null` response, rejected backend call) gives `METRIC`. -/
theorem getUnitSystemFromLatLong_spec (outcome : PResult (Option ReverseGeocodeResponse)) :
    getUnitSystemFromLatLong outcome = UnitSystem.IMPERIAL ↔
      ∃ (r : ReverseGeocodeResponse) (items : List (Option ReverseResultItem))
        (item : ReverseResultItem) (addr : GeoAddress) (country : GeoCountry) (code : String),
        outcome = .resolved (some r) ∧ r.ResultItems = some items ∧
        items.head? = some (some item) ∧ item.Address = some addr ∧
        addr.Country = some country ∧ country.Code3 = some code ∧
        (code = "USA" ∨ code = "MMR" ∨ code = "LBR") := by
  rcases outcome with response | _
  · rcases response with _ | ⟨_ | items⟩
    · simp [getUnitSystemFromLatLong, jsOrEmpty]
    · simp [getUnitSystemFromLatLong, jsOrEmpty]
    · rcases items with _ | ⟨_ | ⟨_ | ⟨label, _ | ⟨_ | code⟩⟩⟩, rest⟩
      · simp [getUnitSystemFromLatLong, jsOrEmpty]
      · simp [getUnitSystemFromLatLong, jsOrEmpty]
      · simp [getUnitSystemFromLatLong, jsOrEmpty]
      · simp [getUnitSystemFromLatLong, jsOrEmpty]
      · simp [getUnitSystemFromLatLong, jsOrEmpty]
      · by_cases hc : code = ""
        · subst hc
          simp [getUnitSystemFromLatLong, jsOrEmpty]
        · by_cases hm : code = "USA" ∨ code = "MMR" ∨ code = "LBR" <;>
            simp [getUnitSystemFromLatLong, jsOrEmpty, hc, hm, List.contains]
  · simp [getUnitSystemFromLatLong, jsOrEmpty]

/- ### C7 -/

/-- C7: constructing a coordinate with the no-clamp flag unset stores
`max (-90) (min 90 lat)` as latitude and a longitude in `[-180, 180)` that
differs from the input by an integer multiple of 360; with the flag set both
values are stored unchanged. -/
theorem mkMigrationLatLng_spec (lat lng : ℚ) :
    (mkMigrationLatLng lat lng false).latValue = max (-90) (min 90 lat) ∧
      -180 ≤ (mkMigrationLatLng lat lng false).lngValue ∧
      (mkMigrationLatLng lat lng false).lngValue < 180 ∧
      (∃ k : ℤ, (mkMigrationLatLng lat lng false).lngValue = lng - 360 * k) ∧
      mkMigrationLatLng lat lng true = { latValue := lat, lngValue := lng } := by
  have hfl : ((Rat.floor ((lng + 180) / 360) : ℤ) : ℚ) ≤ (lng + 180) / 360 :=
    Int.floor_le ((lng + 180) / 360)
  have hfu : (lng + 180) / 360 < (Rat.floor ((lng + 180) / 360) : ℤ) + 1 :=
    Int.lt_floor_add_one ((lng + 180) / 360)
  have h360 : (0 : ℚ) < 360 := by norm_num
  refine ⟨rfl, ?_, ?_, ⟨Rat.floor ((lng + 180) / 360), rfl⟩, rfl⟩
  · have := (le_div_iff₀ h360).mp hfl
    simp only [mkMigrationLatLng, wrapLng, if_neg (by decide : ¬false = true)]
    linarith
  · have := (div_lt_iff₀ h360).mp hfu
    simp only [mkMigrationLatLng, wrapLng, if_neg (by decide : ¬false = true)]
    linarith

/- ### C9 -/

/-- C9: `extend` returns the very same reference it received (the receiver,
not a copy), and after the call the bounds object at that reference contains
the extended point. -/
theorem boundsExtend_spec (store : BoundsStore) (self : Nat) (lat lng : ℚ) :
    (boundsExtend store self lat lng).2 = self ∧
      boundsContains ((boundsExtend store self lat lng).1 self) lat lng = true := by
  refine ⟨rfl, ?_⟩
  unfold boundsExtend
  simp only [Function.update_same]
  rcases store self with _ | ⟨swLat, swLng, neLat, neLng⟩
  · simp [boundsExtendValue, boundsContains]
  · simp only [boundsExtendValue, boundsContains, Bool.and_eq_true, decide_eq_true_eq]
    refine ⟨⟨⟨min_le_right _ _, le_max_right _ _⟩, min_le_right _ _⟩, le_max_right _ _⟩

/- ### C3 -/

/-- C3: whenever the backend call throws or the response is missing expected
fields (so parsing fails), `geocode` invokes a supplied callback exactly once
with `(null, UNKNOWN_ERROR)`, rejects the promise with an error whose `status`
is `UNKNOWN_ERROR`, and logs the error exactly once — callback and rejection
both fire for the same single failure (and without a callback the promise
rejection and single log still occur). -/
theorem geocode_failure_spec (outcome : PResult (Option ReverseGeocodeResponse))
    (h : geocodeParse outcome = none) :
    (geocode outcome true).callbackCalls = [(none, GeocoderStatus.UNKNOWN_ERROR)] ∧
      (geocode outcome true).promiseOutcome =
        .error { status := GeocoderStatus.UNKNOWN_ERROR } ∧
      (geocode outcome true).errorLogs = 1 ∧
      (geocode outcome false).callbackCalls = [] ∧
      (geocode outcome false).promiseOutcome =
        .error { status := GeocoderStatus.UNKNOWN_ERROR } ∧
      (geocode outcome false).errorLogs = 1 := by
  simp [geocode, h]

/-- C3 witness: the mocked failure of the tests — the backend resolves with an
empty object (no `ResultItems`) — parses to `none`, and the trace shows the
callback, the rejection and the single log. -/
theorem geocode_failure_spec_witness :
    geocodeParse (.resolved (some { ResultItems := none })) = none ∧
      (geocode (.resolved (some { ResultItems := none })) true).callbackCalls =
        [(none, GeocoderStatus.UNKNOWN_ERROR)] :=
  ⟨rfl, (geocode_failure_spec (.resolved (some { ResultItems := none })) rfl).1⟩

/- ### C8 -/

/-- C8: drawing a circle on construction-with-map makes exactly one add-source
call and exactly two add-layer calls, the fill layer strictly before the line
layer, both referencing the circle's source; removing it via `setMap(null)`
when the lookups report existence makes exactly two remove-layer calls and one
remove-source call, every layer removal strictly before the source removal. -/
theorem circleLifecycle_spec (n : Nat) :
    ((circleDrawOps n).countP MapOp.isAddSource = 1 ∧
      (circleDrawOps n).countP MapOp.isAddLayer = 2) ∧
      (∃ i j, i < j ∧ ∃ (hi : i < (circleDrawOps n).length) (hj : j < (circleDrawOps n).length),
        (circleDrawOps n).get ⟨i, hi⟩ = .addLayer .fill (circleFillId n) (circleSourceId n) ∧
        (circleDrawOps n).get ⟨j, hj⟩ = .addLayer .line (circleLineId n) (circleSourceId n)) ∧
      ((circleRemoveOps n true true true).countP MapOp.isRemoveLayer = 2 ∧
        (circleRemoveOps n true true true).countP MapOp.isRemoveSource = 1) ∧
      (∀ i j (hi : i < (circleRemoveOps n true true true).length)
        (hj : j < (circleRemoveOps n true true true).length),
        ((circleRemoveOps n true true true).get ⟨i, hi⟩).isRemoveLayer = true →
        ((circleRemoveOps n true true true).get ⟨j, hj⟩).isRemoveSource = true → i < j) := by
  refine ⟨⟨rfl, rfl⟩, ?_, ⟨rfl, rfl⟩, ?_⟩
  · exact ⟨1, 2, by omega, by simp [circleDrawOps], by simp [circleDrawOps], rfl, rfl⟩
  · intro i j hi hj hopi hopj
    simp only [circleRemoveOps, if_pos, List.length_append, List.length_cons,
      List.length_nil] at hi hj
    interval_cases i <;> interval_cases j <;>
      simp_all [circleRemoveOps, List.get, MapOp.isRemoveLayer, MapOp.isRemoveSource]

/-- C8 witness: for circle counter 0, the draw trace's layer calls at indices 1
and 2 reference the circle's source and are ordered fill before line, and the
removal trace's layer removal at index 0 precedes the source removal at
index 2. -/
theorem circleLifecycle_spec_witness :
    ((circleDrawOps 0).countP MapOp.isAddSource = 1 ∧
      (circleDrawOps 0).countP MapOp.isAddLayer = 2) ∧ (0 : Nat) < 2 :=
  ⟨(circleLifecycle_spec 0).1,
    (circleLifecycle_spec 0).2.2.2 0 2 (by decide) (by decide) rfl rfl⟩

/- ### C5 -/

/-- The metric path of the source agrees with the claim's metric rules: the
source tests `km < 1`, the claim `meters < 1000`, which coincide. -/
lemma formatDistance_metric_eq (m : ℚ) :
    formatDistanceBasedOnUnitSystem m (some UnitSystem.METRIC) = distanceClaimMetric m := by
  have hopt : ¬(some UnitSystem.METRIC = some UnitSystem.IMPERIAL) := by simp
  simp only [formatDistanceBasedOnUnitSystem, if_neg hopt]
  unfold formatMetricDistance distanceClaimMetric
  rcases lt_or_le m 1000 with h | h
  · rw [if_pos ((div_lt_one (by norm_num : (0:ℚ) < 1000)).mpr h), if_pos h]
  · rw [if_neg (not_lt.mpr ((one_le_div (by norm_num : (0:ℚ) < 1000)).mpr h)),
      if_neg (not_lt.mpr h)]

/-- The imperial path of the source agrees with the claim's imperial rules
(the conversion constants coincide). -/
lemma formatDistance_imperial_eq (m : ℚ) :
    formatDistanceBasedOnUnitSystem m (some UnitSystem.IMPERIAL) = distanceClaimImperial m := by
  simp only [formatDistanceBasedOnUnitSystem, distanceClaimImperial, formatImperialDistance,
    KILOMETERS_TO_MILES_CONSTANT, FEET_TO_MILES_CONSTANT]
  rw [if_pos trivial]

/-- Evaluation of the claim's first concrete example. -/
lemma formatDistance_metric_1500000 :
    formatDistanceBasedOnUnitSystem 1500000 (some UnitSystem.METRIC) = "1,500 km" := by
  rw [formatDistance_metric_eq]
  unfold distanceClaimMetric
  rw [if_neg (by norm_num : ¬(1500000:ℚ) < 1000),
    if_neg (by norm_num : ¬(1500000:ℚ)/1000 < 1000)]
  have hjr : jsRound ((1500000:ℚ)/1000) = 1500 := by
    show ⌊(1500000:ℚ)/1000 + 1/2⌋ = 1500
    rw [Int.floor_eq_iff]
    norm_num
  rw [largeNumberFormatter, hjr]
  decide

/-- Evaluation of the claim's second concrete example. -/
lemma formatDistance_metric_999000 :
    formatDistanceBasedOnUnitSystem 999000 (some UnitSystem.METRIC) = "999.0 km" := by
  rw [formatDistance_metric_eq]
  unfold distanceClaimMetric
  rw [if_neg (by norm_num : ¬(999000:ℚ) < 1000),
    if_pos (by norm_num : (999000:ℚ)/1000 < 1000)]
  have hjr : jsRound ((999000:ℚ)/1000 * 10) = 9990 := by
    show ⌊(999000:ℚ)/1000 * 10 + 1/2⌋ = 9990
    rw [Int.floor_eq_iff]
    norm_num
  rw [numberFormatter, hjr]
  decide

/-- Evaluation of the claim's third concrete example. -/
lemma formatDistance_imperial_1609345 :
    formatDistanceBasedOnUnitSystem 1609345 (some UnitSystem.IMPERIAL) = "1,000 mi" := by
  rw [formatDistance_imperial_eq]
  unfold distanceClaimImperial
  rw [if_neg (by norm_num : ¬(1609345:ℚ)/1000 * (621371/1000000) < 1/10),
    if_neg (by norm_num : ¬(1609345:ℚ)/1000 * (621371/1000000) < 1000)]
  have hjr : jsRound ((1609345:ℚ)/1000 * (621371/1000000)) = 1000 := by
    show ⌊(1609345:ℚ)/1000 * (621371/1000000) + 1/2⌋ = 1000
    rw [Int.floor_eq_iff]
    norm_num
  rw [largeNumberFormatter, hjr]
  decide

/-- C5: for every non-negative meters value, the source's metric formatting
agrees with the claim's metric rules and its imperial formatting with the
claim's imperial rules (conversion at 0.621371 mi/km and 5280 ft/mi), and in
particular 1500000 m METRIC is "1,500 km", 999000 m METRIC is "999.0 km" and
1609345 m IMPERIAL is "1,000 mi". -/
theorem formatDistance_spec (m : ℚ) (_hm : 0 ≤ m) :
    formatDistanceBasedOnUnitSystem m (some UnitSystem.METRIC) = distanceClaimMetric m ∧
      formatDistanceBasedOnUnitSystem m (some UnitSystem.IMPERIAL) = distanceClaimImperial m ∧
      formatDistanceBasedOnUnitSystem 1500000 (some UnitSystem.METRIC) = "1,500 km" ∧
      formatDistanceBasedOnUnitSystem 999000 (some UnitSystem.METRIC) = "999.0 km" ∧
      formatDistanceBasedOnUnitSystem 1609345 (some UnitSystem.IMPERIAL) = "1,000 mi" :=
  ⟨formatDistance_metric_eq m, formatDistance_imperial_eq m, formatDistance_metric_1500000,
    formatDistance_metric_999000, formatDistance_imperial_1609345⟩

/-- C5 witness: the theorem applied at the concrete non-negative value 0. -/
theorem formatDistance_spec_witness :
    (0:ℚ) ≤ 0 ∧
      formatDistanceBasedOnUnitSystem 0 (some UnitSystem.METRIC) = distanceClaimMetric 0 :=
  ⟨le_refl 0, (formatDistance_spec 0 (le_refl 0)).1⟩
